import Mathlib

/-!
Verification of the Bank Marketing Prediction app (`app.py`).

The app collects client attributes through bounded widgets, derives three
engineered features, feeds the record to a pre-trained classifier, and maps
the predicted probability to a three-tier recommendation.  We embed the
computational core shallowly: enum-valued widgets become `String` fields,
continuous widgets become `ℚ` fields, the model is an abstract value whose
predict call may fail (`Except`), and the Streamlit message calls become an
explicit list of UI messages / display state.
-/

/-- Raw form fields, exactly as collected by the sidebar widgets in
`get_user_input` (`app.py` lines 54-98). -/
structure RawFields where
  age : Nat
  job : String
  marital : String
  education : String
  default : String
  housing : String
  loan : String
  contact : String
  month : String
  day_of_week : String
  campaign : Nat
  pdays : Nat
  previous : Nat
  poutcome : String
  emp_var_rate : ℚ
  cons_price_idx : ℚ
  cons_conf_idx : ℚ
  euribor3m : ℚ
  nr_employed : ℚ
deriving DecidableEq

/-- The single-row record handed to the model: the 19 raw columns of the
feature dictionary (`app.py` lines 101-121) plus the three engineered
columns added at lines 127-131. -/
structure ClientRecord where
  age : Nat
  job : String
  marital : String
  education : String
  default : String
  housing : String
  loan : String
  contact : String
  month : String
  day_of_week : String
  campaign : Nat
  pdays : Nat
  previous : Nat
  poutcome : String
  emp_var_rate : ℚ
  cons_price_idx : ℚ
  cons_conf_idx : ℚ
  euribor3m : ℚ
  nr_employed : ℚ
  was_previously_contacted : Nat
  campaign_successful : Nat
  poutcome_success : Nat
deriving DecidableEq

/-- `get_user_input` (`app.py` lines 48-133): builds the feature dictionary
from the widget values and appends the three engineered features:
`was_previously_contacted = (pdays != 999).astype(int)`,
`campaign_successful = 1 if campaign < 5 else 0`,
`poutcome_success = (poutcome == 'success').astype(int)`. -/
def get_user_input (r : RawFields) : ClientRecord :=
  { age := r.age
    job := r.job
    marital := r.marital
    education := r.education
    default := r.default
    housing := r.housing
    loan := r.loan
    contact := r.contact
    month := r.month
    day_of_week := r.day_of_week
    campaign := r.campaign
    pdays := r.pdays
    previous := r.previous
    poutcome := r.poutcome
    emp_var_rate := r.emp_var_rate
    cons_price_idx := r.cons_price_idx
    cons_conf_idx := r.cons_conf_idx
    euribor3m := r.euribor3m
    nr_employed := r.nr_employed
    was_previously_contacted := if r.pdays ≠ 999 then 1 else 0
    campaign_successful := if r.campaign < 5 then 1 else 0
    poutcome_success := if r.poutcome = "success" then 1 else 0 }

/-- The triple of engineered features of a record, in the order
(`was_previously_contacted`, `campaign_successful`, `poutcome_success`). -/
def derivedTriple (rec : ClientRecord) : Nat × Nat × Nat :=
  (rec.was_previously_contacted, rec.campaign_successful, rec.poutcome_success)

/-- Widget-enforced bounds on the raw fields: slider ranges, number-input
ranges and the fixed choice lists of the selectboxes (`app.py`
lines 54-98). -/
def InBounds (r : RawFields) : Prop :=
  18 ≤ r.age ∧ r.age ≤ 95 ∧
  r.job ∈ ["admin.", "blue-collar", "entrepreneur", "housemaid",
           "management", "retired", "self-employed", "services",
           "student", "technician", "unemployed", "unknown"] ∧
  r.marital ∈ ["married", "single", "divorced", "unknown"] ∧
  r.education ∈ ["basic.4y", "basic.6y", "basic.9y", "high.school",
                 "illiterate", "professional.course", "university.degree",
                 "unknown"] ∧
  r.default ∈ ["no", "yes", "unknown"] ∧
  r.housing ∈ ["no", "yes", "unknown"] ∧
  r.loan ∈ ["no", "yes", "unknown"] ∧
  r.contact ∈ ["cellular", "telephone"] ∧
  r.month ∈ ["jan", "feb", "mar", "apr", "may", "jun",
             "jul", "aug", "sep", "oct", "nov", "dec"] ∧
  r.day_of_week ∈ ["mon", "tue", "wed", "thu", "fri"] ∧
  1 ≤ r.campaign ∧ r.campaign ≤ 50 ∧
  r.pdays ≤ 999 ∧
  r.previous ≤ 10 ∧
  r.poutcome ∈ ["nonexistent", "failure", "success"] ∧
  -5 ≤ r.emp_var_rate ∧ r.emp_var_rate ≤ 5 ∧
  90 ≤ r.cons_price_idx ∧ r.cons_price_idx ≤ 100 ∧
  -60 ≤ r.cons_conf_idx ∧ r.cons_conf_idx ≤ 0 ∧
  0 ≤ r.euribor3m ∧ r.euribor3m ≤ 10 ∧
  4900 ≤ r.nr_employed ∧ r.nr_employed ≤ 5300

instance (r : RawFields) : Decidable (InBounds r) := by
  unfold InBounds; infer_instance

/-- The invariant of §3 of the spec on a built record: the three derived
fields are computed from the record's own `pdays`, `campaign` and
`poutcome` by the stated formulas. -/
def derivedInvariant (rec : ClientRecord) : Prop :=
  rec.was_previously_contacted = (if rec.pdays ≠ 999 then 1 else 0) ∧
  rec.campaign_successful = (if rec.campaign < 5 then 1 else 0) ∧
  rec.poutcome_success = (if rec.poutcome = "success" then 1 else 0)

/-- The three recommendation tiers rendered at `app.py` lines 204-224. -/
inductive Tier where
  | low : Tier
  | medium : Tier
  | high : Tier
deriving DecidableEq

/-- The recommendation tiering of `main` (`app.py` lines 204-224):
`if probability > 0.7` shows HIGH, `elif probability > 0.4` shows MEDIUM,
`else` shows LOW. -/
def tier (p : ℚ) : Tier :=
  if 7/10 < p then Tier.high
  else if 4/10 < p then Tier.medium
  else Tier.low

/-- Region predicate written from the spec's words (§4.4): the tier `t` is
the one the spec's three bands assign to probability `p`. -/
def specTierRegion (p : ℚ) (t : Tier) : Prop :=
  (t = Tier.high ∧ 7/10 < p) ∨
  (t = Tier.medium ∧ 4/10 < p ∧ p ≤ 7/10) ∨
  (t = Tier.low ∧ p ≤ 4/10)

/-- Fixed artifact path (`app.py` line 31). -/
def MODEL_PATH : String := "final_bank_marketing_model.joblib"

/-- Streamlit messages emitted by the loader. -/
inductive UIMsg where
  | errorMsg : String → UIMsg
  | infoMsg : String → UIMsg
deriving DecidableEq

/-- `load_model` (`app.py` lines 33-46), abstracted over the filesystem:
`fileExists` is the result of `os.path.exists(MODEL_PATH)` and
`deserialize` the outcome of `joblib.load(MODEL_PATH)`.  Returns the loaded
model (`none` on any failure) together with the UI messages shown. -/
def load_model {α : Type} (fileExists : Bool) (deserialize : Except String α) :
    Option α × List UIMsg :=
  if fileExists then
    match deserialize with
    | Except.ok m => (some m, [])
    | Except.error e => (none, [UIMsg.errorMsg ("Error loading model: " ++ e)])
  else
    (none,
     [UIMsg.errorMsg (" Model file not found: " ++ MODEL_PATH),
      UIMsg.infoMsg "Please run the Jupyter notebook first to train and save the model."])

/-- Control state of `main` after the load step (`app.py` lines 141-147):
`st.stop()` when the model is `None`, otherwise the form is read and the
prediction button is live. -/
inductive AppPhase (α : Type) where
  | halted : AppPhase α
  | ready : α → ClientRecord → AppPhase α

/-- Whether a prediction control is available in a phase: only the `ready`
phase reaches the predict button at `app.py` line 180. -/
def predictionAvailable {α : Type} : AppPhase α → Bool
  | AppPhase.halted => false
  | AppPhase.ready _ _ => true

/-- The load-then-build prefix of `main` (`app.py` lines 135-147). -/
def main_flow {α : Type} (fileExists : Bool) (deserialize : Except String α)
    (raw : RawFields) : AppPhase α :=
  match (load_model fileExists deserialize).1 with
  | none => AppPhase.halted
  | some m => AppPhase.ready m (get_user_input raw)

/-- Displayed results area: the rendered prediction (label and probability
of class 1) and the error / info texts of the except branch. -/
structure DisplayState where
  results : Option (Nat × ℚ)
  errorText : Option String
  infoText : Option String
deriving DecidableEq

/-- The button handler of `main` (`app.py` lines 180-228): calls the
model's predict / predict_proba on the record inside `try`; on success the
results area is rendered from the prediction, on an exception the except
branch shows the error with its cause and the results area is left as it
was. -/
def predict_click {α : Type}
    (predict : α → ClientRecord → Except String (Nat × ℚ))
    (m : α) (rec : ClientRecord) (prior : DisplayState) : DisplayState :=
  match predict m rec with
  | Except.ok r =>
      { results := some r, errorText := none, infoText := none }
  | Except.error e =>
      { results := prior.results
        errorText := some ("Prediction error: " ++ e)
        infoText := some "Please check that all required features are provided." }

/-- A concrete in-bounds raw field set (the widget defaults of `app.py`). -/
def sampleRaw : RawFields :=
  { age := 35, job := "admin.", marital := "married", education := "basic.4y"
    default := "no", housing := "no", loan := "no", contact := "cellular"
    month := "jan", day_of_week := "mon", campaign := 2, pdays := 999
    previous := 0, poutcome := "nonexistent", emp_var_rate := 11/10
    cons_price_idx := 93994/1000, cons_conf_idx := -364/10
    euribor3m := 4857/1000, nr_employed := 5191 }

/-- `sampleRaw` with the fields of Scenario B of the spec: `pdays = 5`,
`campaign = 7`, `poutcome = "success"`. -/
def sampleRawB : RawFields :=
  { sampleRaw with pdays := 5, campaign := 7, poutcome := "success" }

/-- `sampleRaw` with other fields varied but `pdays`, `campaign`,
`poutcome` unchanged (for the frame property). -/
def sampleRawC : RawFields :=
  { sampleRaw with
    age := 60
    job := "retired"
    marital := "single"
    emp_var_rate := -2
    nr_employed := 5000 }

/-- C1: for every input record, `campaign_successful` is 1 if `campaign`
is strictly less than 5 and 0 if `campaign` is at least 5. -/
theorem campaign_successful_low_contact (r : RawFields) :
    (r.campaign < 5 → (get_user_input r).campaign_successful = 1) ∧
    (5 ≤ r.campaign → (get_user_input r).campaign_successful = 0) := by
  refine ⟨fun h => ?_, fun h => ?_⟩
  · simp [get_user_input, h]
  · simp [get_user_input, Nat.not_lt.mpr h]

/-- C1 witness: both cases at concrete inputs (campaign 2 and 7). -/
theorem campaign_successful_low_contact_witness :
    (get_user_input sampleRaw).campaign_successful = 1 ∧
    (get_user_input sampleRawB).campaign_successful = 0 :=
  ⟨(campaign_successful_low_contact sampleRaw).1 (by decide),
   (campaign_successful_low_contact sampleRawB).2 (by decide)⟩

/-- C2: `was_previously_contacted` is 1 when `pdays` is not 999 and 0 when
`pdays` is 999; Scenario A (`pdays` 999, `campaign` 2, `poutcome`
"nonexistent") yields derived features (0, 1, 0). -/
theorem was_previously_contacted_flag (r : RawFields) :
    ((r.pdays ≠ 999 → (get_user_input r).was_previously_contacted = 1) ∧
     (r.pdays = 999 → (get_user_input r).was_previously_contacted = 0)) ∧
    (r.pdays = 999 → r.campaign = 2 → r.poutcome = "nonexistent" →
      derivedTriple (get_user_input r) = (0, 1, 0)) := by
  refine ⟨⟨fun h => ?_, fun h => ?_⟩, fun h1 h2 h3 => ?_⟩
  · simp [get_user_input, h]
  · simp [get_user_input, h]
  · simp [derivedTriple, get_user_input, h1, h2, h3]

/-- C2 witness: Scenario A at the concrete default input. -/
theorem was_previously_contacted_flag_witness :
    (get_user_input sampleRaw).was_previously_contacted = 0 ∧
    derivedTriple (get_user_input sampleRaw) = (0, 1, 0) :=
  ⟨(was_previously_contacted_flag sampleRaw).1.2 rfl,
   (was_previously_contacted_flag sampleRaw).2 rfl rfl rfl⟩

/-- C3: `poutcome_success` is 1 exactly when `poutcome` is the string
"success", else 0; Scenario B (`pdays` 5, `campaign` 7, `poutcome`
"success") yields derived features (1, 0, 1). -/
theorem poutcome_success_flag (r : RawFields) :
    ((get_user_input r).poutcome_success = 1 ↔ r.poutcome = "success") ∧
    (r.poutcome ≠ "success" → (get_user_input r).poutcome_success = 0) ∧
    (r.pdays = 5 → r.campaign = 7 → r.poutcome = "success" →
      derivedTriple (get_user_input r) = (1, 0, 1)) := by
  refine ⟨?_, fun h => ?_, fun h1 h2 h3 => ?_⟩
  · by_cases h : r.poutcome = "success" <;> simp [get_user_input, h]
  · simp [get_user_input, h]
  · simp [derivedTriple, get_user_input, h1, h2, h3]

/-- C3 witness: Scenario B at a concrete input. -/
theorem poutcome_success_flag_witness :
    (get_user_input sampleRawB).poutcome_success = 1 ∧
    derivedTriple (get_user_input sampleRawB) = (1, 0, 1) :=
  ⟨(poutcome_success_flag sampleRawB).1.mpr rfl,
   (poutcome_success_flag sampleRawB).2.2 rfl rfl rfl⟩

/-- C4: for every probability in [0,1] the tiering is HIGH exactly when
p > 0.7, MEDIUM exactly when 0.4 < p ≤ 0.7 and LOW exactly when p ≤ 0.4;
both cutoffs are strict, so tier 0.7 = MEDIUM and tier 0.4 = LOW. -/
theorem tier_boundary_policy (p : ℚ) (h0 : 0 ≤ p) (h1 : p ≤ 1) :
    ((tier p = Tier.high ↔ 7/10 < p) ∧
     (tier p = Tier.medium ↔ (4/10 < p ∧ p ≤ 7/10)) ∧
     (tier p = Tier.low ↔ p ≤ 4/10)) ∧
    tier (7/10 : ℚ) = Tier.medium ∧ tier (4/10 : ℚ) = Tier.low := by
  refine ⟨⟨?_, ?_, ?_⟩, by norm_num [tier], by norm_num [tier]⟩ <;>
    unfold tier <;> split_ifs with hH hM <;>
    simp_all <;> linarith

/-- C4 witness: the boundary facts at p = 1/2. -/
theorem tier_boundary_policy_witness :
    tier (7/10 : ℚ) = Tier.medium ∧ tier (4/10 : ℚ) = Tier.low :=
  (tier_boundary_policy (1/2) (by norm_num) (by norm_num)).2

/-- C5: the tiering is total and the tiers are mutually exclusive: every
probability in [0,1] satisfies the spec region of the tier the code
assigns, and exactly one tier satisfies the spec region. -/
theorem tier_total_partition (p : ℚ) (h0 : 0 ≤ p) (h1 : p ≤ 1) :
    specTierRegion p (tier p) ∧ ∃! t : Tier, specTierRegion p t := by
  have hreal : specTierRegion p (tier p) := by
    unfold tier specTierRegion
    split_ifs with hH hM
    · exact Or.inl ⟨rfl, hH⟩
    · exact Or.inr (Or.inl ⟨rfl, hM, le_of_not_lt hH⟩)
    · exact Or.inr (Or.inr ⟨rfl, le_of_not_lt hM⟩)
  have huniq : ∀ t : Tier, specTierRegion p t → t = tier p := by
    intro t ht
    unfold tier
    unfold specTierRegion at ht
    split_ifs with hH hM
    · rcases ht with ⟨h, _⟩ | ⟨h, _, hle⟩ | ⟨h, hle⟩
      · exact h
      · exact absurd hH (not_lt.mpr hle)
      · exact absurd hH (not_lt.mpr (le_trans hle (by norm_num)))
    · rcases ht with ⟨h, hgt⟩ | ⟨h, _, _⟩ | ⟨h, hle⟩
      · exact absurd hgt hH
      · exact h
      · exact absurd hM (not_lt.mpr hle)
    · rcases ht with ⟨h, hgt⟩ | ⟨h, hgt2, _⟩ | ⟨h, _⟩
      · exact absurd hgt hH
      · exact absurd hgt2 hM
      · exact h
  exact ⟨hreal, tier p, hreal, huniq⟩

/-- C5 witness: the partition at p = 1/2. -/
theorem tier_total_partition_witness :
    specTierRegion (1/2) (tier (1/2)) ∧ ∃! t : Tier, specTierRegion (1/2) t :=
  tier_total_partition (1/2) (by norm_num) (by norm_num)

/-- C6: if the model's predict raises on the built record, the handler
surfaces the error with its underlying cause and the displayed results
area is exactly the prior one (atomicity on error). -/
theorem predict_click_error_atomic {α : Type}
    (predict : α → ClientRecord → Except String (Nat × ℚ)) (m : α)
    (rec : ClientRecord) (prior : DisplayState) (e : String)
    (h : predict m rec = Except.error e) :
    (predict_click predict m rec prior).results = prior.results ∧
    (predict_click predict m rec prior).errorText
      = some ("Prediction error: " ++ e) ∧
    (predict_click predict m rec prior).infoText
      = some "Please check that all required features are provided." := by
  unfold predict_click
  rw [h]
  exact ⟨rfl, rfl, rfl⟩

/-- C6 witness: a failing model, and a prior display whose results
survive untouched. -/
theorem predict_click_error_atomic_witness :
    (predict_click (fun (_ : Unit) (_ : ClientRecord) => Except.error "boom")
        () (get_user_input sampleRaw)
        { results := some (1, 1/2), errorText := none, infoText := none }).results
      = some (1, 1/2) ∧
    (predict_click (fun (_ : Unit) (_ : ClientRecord) => Except.error "boom")
        () (get_user_input sampleRaw)
        { results := some (1, 1/2), errorText := none, infoText := none }).errorText
      = some "Prediction error: boom" := by
  have h := predict_click_error_atomic
    (fun (_ : Unit) (_ : ClientRecord) => (Except.error "boom" : Except String (Nat × ℚ)))
    () (get_user_input sampleRaw)
    { results := some (1, 1/2), errorText := none, infoText := none } "boom" rfl
  exact ⟨h.1, h.2.1⟩

/-- C7: the loader returns Absent in exactly the two failure cases: a
missing artifact yields the not-found error plus remediation guidance, a
raising deserialization yields the load error with its cause, and
otherwise the loaded model is returned. -/
theorem load_model_cases {α : Type} (fileExists : Bool)
    (deserialize : Except String α) :
    (fileExists = false →
      load_model fileExists deserialize =
        (none,
         [UIMsg.errorMsg (" Model file not found: " ++ MODEL_PATH),
          UIMsg.infoMsg "Please run the Jupyter notebook first to train and save the model."])) ∧
    (∀ e, fileExists = true → deserialize = Except.error e →
      load_model fileExists deserialize =
        (none, [UIMsg.errorMsg ("Error loading model: " ++ e)])) ∧
    (∀ m, fileExists = true → deserialize = Except.ok m →
      load_model fileExists deserialize = (some m, [])) := by
  refine ⟨fun h => ?_, fun e h he => ?_, fun m h hm => ?_⟩ <;>
    subst h <;> simp [load_model, *]

/-- C7 witness: the three cases at concrete arguments. -/
theorem load_model_cases_witness :
    load_model false (Except.error "io" : Except String Unit) =
      (none,
       [UIMsg.errorMsg (" Model file not found: " ++ MODEL_PATH),
        UIMsg.infoMsg "Please run the Jupyter notebook first to train and save the model."]) ∧
    load_model true (Except.error "io" : Except String Unit) =
      (none, [UIMsg.errorMsg "Error loading model: io"]) ∧
    load_model true (Except.ok ()) = (some (), []) := by
  refine ⟨(load_model_cases false (Except.error "io")).1 rfl, ?_, ?_⟩
  · have h := (load_model_cases true (Except.error "io" : Except String Unit)).2.1
      "io" rfl rfl
    simpa using h
  · exact (load_model_cases true (Except.ok ())).2.2 () rfl rfl

/-- C8: whenever the loader returns Absent, `main` halts before any
prediction step and no prediction control is available. -/
theorem main_halts_without_model {α : Type} (fileExists : Bool)
    (deserialize : Except String α) (raw : RawFields)
    (h : (load_model fileExists deserialize).1 = none) :
    main_flow fileExists deserialize raw = AppPhase.halted ∧
    predictionAvailable (main_flow fileExists deserialize raw) = false := by
  unfold main_flow
  rw [h]
  exact ⟨rfl, rfl⟩

/-- C8 witness: a missing artifact halts the app at the default input. -/
theorem main_halts_without_model_witness :
    main_flow false (Except.ok ()) sampleRaw = AppPhase.halted ∧
    predictionAvailable (main_flow false (Except.ok ()) sampleRaw) = false :=
  main_halts_without_model false (Except.ok ()) sampleRaw rfl

/-- C9: the feature builder is total and pure on widget-bounded inputs: it
always produces a record satisfying the derived-fields invariant, with no
error condition. -/
theorem get_user_input_total (r : RawFields) (h : InBounds r) :
    derivedInvariant (get_user_input r) := by
  exact ⟨rfl, rfl, rfl⟩

/-- C9 witness: the default widget values are in bounds and build a
well-formed record. -/
theorem get_user_input_total_witness :
    InBounds sampleRaw ∧ derivedInvariant (get_user_input sampleRaw) :=
  ⟨by norm_num [InBounds, sampleRaw],
   get_user_input_total sampleRaw (by norm_num [InBounds, sampleRaw])⟩

/-- C10: the builder passes each of the 19 raw fields through unchanged,
and the three derived fields depend only on `pdays`, `campaign` and
`poutcome`: inputs agreeing on those three get identical derived
features. -/
theorem get_user_input_frame :
    (∀ r : RawFields,
      (get_user_input r).age = r.age ∧
      (get_user_input r).job = r.job ∧
      (get_user_input r).marital = r.marital ∧
      (get_user_input r).education = r.education ∧
      (get_user_input r).default = r.default ∧
      (get_user_input r).housing = r.housing ∧
      (get_user_input r).loan = r.loan ∧
      (get_user_input r).contact = r.contact ∧
      (get_user_input r).month = r.month ∧
      (get_user_input r).day_of_week = r.day_of_week ∧
      (get_user_input r).campaign = r.campaign ∧
      (get_user_input r).pdays = r.pdays ∧
      (get_user_input r).previous = r.previous ∧
      (get_user_input r).poutcome = r.poutcome ∧
      (get_user_input r).emp_var_rate = r.emp_var_rate ∧
      (get_user_input r).cons_price_idx = r.cons_price_idx ∧
      (get_user_input r).cons_conf_idx = r.cons_conf_idx ∧
      (get_user_input r).euribor3m = r.euribor3m ∧
      (get_user_input r).nr_employed = r.nr_employed) ∧
    (∀ r1 r2 : RawFields, r1.pdays = r2.pdays → r1.campaign = r2.campaign →
      r1.poutcome = r2.poutcome →
      derivedTriple (get_user_input r1) = derivedTriple (get_user_input r2)) := by
  refine ⟨fun r => ?_, fun r1 r2 h1 h2 h3 => ?_⟩
  · exact ⟨rfl, rfl, rfl, rfl, rfl, rfl, rfl, rfl, rfl, rfl, rfl, rfl, rfl,
      rfl, rfl, rfl, rfl, rfl, rfl⟩
  · simp [derivedTriple, get_user_input, h1, h2, h3]

/-- C10 witness: pass-through at the default input, and agreement of the
derived triple across two inputs that share `pdays`, `campaign`,
`poutcome` but differ elsewhere. -/
theorem get_user_input_frame_witness :
    (get_user_input sampleRaw).age = sampleRaw.age ∧
    derivedTriple (get_user_input sampleRaw)
      = derivedTriple (get_user_input sampleRawC) :=
  ⟨(get_user_input_frame.1 sampleRaw).1,
   get_user_input_frame.2 sampleRaw sampleRawC rfl rfl rfl⟩
